import Mathlib

/-
Shallow embedding of the orchestration pipeline and streaming-event relay of
the fund_manager_workshop repository:

* `src/fund_manager/completed/fund_manager.py` — the LangGraph pipeline
  (financial → portfolio → risk), the per-stage agent invoker
  `call_agent_with_streaming`, and the memory writer `save_to_memory`;
* `src/fund_manager/app.py` — the Streamlit consumer loop
  `invoke_fund_manager` (tool-call correlation, per-agent routing, error
  abort) and `load_current_session_summary`;
* `src/fund_manager/completed/agentcore_memory/deploy_agentcore_memory.py` —
  the memory namespace configuration.

JSON parsing is abstracted by a function `parse : String → Option Event`
(`json.loads` either yields a dict, modelled by `Event` below, or raises
`JSONDecodeError`, modelled by `none`).  Remote services (the Bedrock agent
runtimes, the memory store) are oracles supplied in a `World`.
-/

/--
A decoded event frame: models the Python dict produced by `json.loads` on a
`data: ` line, restricted to the fields the repository's code actually reads
(`.get("type")`, `.get("result")`, `.get("data", "")`, `.get("tool_name", "")`,
`.get("tool_use_id", "")`, `.get("tool_input", "")`, `.get("content", [{}])`,
`.get("agent_name")`, `.get("session_id")`, `.get("error", ...)`).
Fields read with `.get(k)` (no default) are `Option`s; fields read with a
default are plain values. `content` keeps just the `"text"` entries the code
extracts.
-/
structure Event where
  type : Option String := none
  data : String := ""
  result : Option String := none
  tool_name : String := ""
  tool_use_id : String := ""
  tool_input : String := ""
  content : List String := []
  agent_name : Option String := none
  session_id : Option String := none
  error : Option String := none
deriving Repr, DecidableEq

/-- Python `line.startswith("data: ")`, on the character sequence of the
line. -/
def isDataFrame (l : String) : Bool :=
  List.isPrefixOf ("data: ").data l.data

/-- Python `line[6:]`: the remainder of the line after the 6-character
`"data: "` prefix. -/
def framePayload (l : String) : String :=
  String.mk (l.data.drop 6)

/--
The line decoder shared by `call_agent_with_streaming`
(fund_manager.py lines 87–97) and `invoke_fund_manager` (app.py lines
423–428): for each line of the response, if it starts with the literal
`"data: "`, parse the remainder as JSON and emit the event; on a parse
failure (`except json.JSONDecodeError: continue`) or a non-prefixed line the
line is skipped and the stream keeps being consumed.  (The Python guard
`if line and line.decode("utf-8").startswith("data: ")` is equivalent:
an empty line never starts with `"data: "`.)
-/
def decodeLines (parse : String → Option Event) : List String → List Event
  | [] => []
  | l :: ls =>
    if isDataFrame l then
      match parse (framePayload l) with
      | some e => e :: decodeLines parse ls
      | none => decodeLines parse ls
    else
      decodeLines parse ls

/--
The terminal-result fold of `call_agent_with_streaming` (lines 85–99):
`final_result` starts as `None` and is overwritten with `event.get("result")`
each time an event of type `streaming_complete` is seen.
-/
def foldFinal (events : List Event) : Option String :=
  events.foldl
    (fun acc e => if e.type = some ("streaming_complete") then e.result else acc)
    none

/-- Output of one stage invocation: the events handed to `writer`, in order,
and the returned `final_result`. -/
structure InvokeOutput where
  emitted : List Event
  final : Option String
deriving Repr, DecidableEq

/--
`call_agent_with_streaming` (fund_manager.py lines 77–99), given the line
stream the transport delivered for this invocation: every successfully
decoded event is relayed unchanged via `writer`, and the returned value is
the `result` field of the last `streaming_complete` event (or `None`).
-/
def callAgentWithStreaming (parse : String → Option Event) (lines : List String) :
    InvokeOutput :=
  let evs := decodeLines parse lines
  ⟨evs, foldFinal evs⟩

/-- Claim C2: for every input line stream, the decoder emits an event exactly
for each line that starts with the literal prefix `"data: "` whose remainder
parses as JSON — lines failing to parse are silently skipped with the rest of
the stream still consumed, non-prefixed lines are discarded — and the
surviving events come out in the same relative order they were received.
This is exactly the statement that the recursive loop `decodeLines` equals an
order-preserving `filterMap` of the line list. -/
theorem claim_C2 (parse : String → Option Event) (lines : List String) :
    decodeLines parse lines
      = lines.filterMap
          (fun l => if isDataFrame l then parse (framePayload l) else none) := by
  induction lines with
  | nil => rfl
  | cons l ls ih =>
    cases h : isDataFrame l with
    | false =>
      simp [decodeLines, h, ih]
    | true =>
      cases hp : parse (framePayload l) with
      | none => simp [decodeLines, h, hp, ih]
      | some e => simp [decodeLines, h, hp, ih]

/-- The three LangGraph nodes of `create_graph` (fund_manager.py lines
174–186). -/
inductive NodeId
  | financial
  | portfolio
  | risk
deriving Repr, DecidableEq

/-- The string key each node uses for ARNs, stream tags and memory turns. -/
def nodeName : NodeId → String
  | .financial => "financial"
  | .portfolio => "portfolio"
  | .risk => "risk"

/-- The `input_data` payload handed to a stage's agent: the original
`user_input` dict (type parameter `Req`), or a prior stage's result string
(possibly `None`). -/
inductive Payload (Req : Type)
  | request (r : Req)
  | stageResult (r : Option String)
deriving Repr, DecidableEq

/-- `FundManagerState` (fund_manager.py lines 26–31).  The three result
fields hold `str` or `None` in Python, so they are `Option String`; the
initial state sets them to the empty string. -/
structure FMState (Req : Type) where
  user_input : Req
  session_id : String
  financial_analysis : Option String
  portfolio_recommendation : Option String
  risk_analysis : Option String
deriving Repr, DecidableEq

/-- One `create_event` call of `save_to_memory` (fund_manager.py lines
109–117): a role-tagged request/response pair for one stage. -/
structure MemoryTurn where
  session_id : String
  actor_id : String
  agent_type : String
  user_text : String
  assistant_text : String
deriving Repr, DecidableEq

/-- Python truthiness of a `str`-or-`None` value (`if not agent_result`). -/
def optStrTruthy : Option String → Bool
  | none => false
  | some s => !s.isEmpty

/-- `input_text` of `save_to_memory` (line 107):
`json.dumps(user_input, ...)` when the payload is the request dict,
`str(user_input)` when it is a prior stage's result (`str(None)` is the
string `"None"`). -/
def payloadText {Req : Type} (dumpReq : Req → String) : Payload Req → String
  | .request r => dumpReq r
  | .stageResult (some s) => s
  | .stageResult none => "None"

/-- The environment of one pipeline run: the remote agent runtimes (a line
stream per invocation, or a transport failure), the JSON parser, the
`json.dumps` rendering of the request dict, the truthiness of the loaded
`memory_id`, and the memory store's accept/raise behaviour per
`create_event` call. -/
structure World (Req : Type) where
  respond : NodeId → Payload Req → Except String (List String)
  parse : String → Option Event
  dumpReq : Req → String
  memory_id : Bool
  memWrite : MemoryTurn → Bool

/--
`save_to_memory` (fund_manager.py lines 101–122): skips entirely when
`memory_id` or `agent_result` is falsy; otherwise attempts one
`create_event` call, and a raising call is caught, logged and swallowed.
Returns (attempted turns, failed turns) — always exactly that pair, never an
exception.
-/
def saveToMemory {Req : Type} (w : World Req) (session_id agent_type : String)
    (user_input : Payload Req) (agent_result : Option String) :
    List MemoryTurn × List MemoryTurn :=
  if !w.memory_id || !optStrTruthy agent_result then ([], [])
  else
    let turn : MemoryTurn :=
      { session_id := session_id
        actor_id := "fund_manager_user"
        agent_type := agent_type
        user_text := agent_type ++ (" 분석 요청: ") ++ payloadText w.dumpReq user_input
        assistant_text := agent_type ++ (" 결과: ") ++ agent_result.getD ("") }
    ([turn], if w.memWrite turn then [] else [turn])

/-- One item written to the pipeline's custom output stream: the
`node_start` / `node_complete` dicts a node writes itself, or a decoded
agent event relayed unchanged by `call_agent_with_streaming`
(`writer(event_data)`, line 91). -/
inductive Chunk
  | nodeStart (agent_name : String) (session_id : String)
  | relay (e : Event)
  | nodeComplete (agent_name : String) (session_id : String) (result : Option String)
deriving Repr, DecidableEq

/-- What one node execution produced: its stream chunks, its attempted and
failed memory writes, and either the updated state or the propagated
transport exception. -/
structure NodeResult (Req : Type) where
  chunks : List Chunk
  writeAttempts : List MemoryTurn
  writeFailures : List MemoryTurn
  next : Except String (FMState Req)
deriving Repr

/-- Which state field feeds each stage: `financial` gets `user_input`,
`portfolio` gets `financial_analysis`, `risk` gets
`portfolio_recommendation` (fund_manager.py lines 132, 148, 164). -/
def nodeInput {Req : Type} (n : NodeId) (s : FMState Req) : Payload Req :=
  match n with
  | .financial => .request s.user_input
  | .portfolio => .stageResult s.financial_analysis
  | .risk => .stageResult s.portfolio_recommendation

/-- Which state field each stage writes (lines 139, 155, 171). -/
def nodeUpdate {Req : Type} (n : NodeId) (s : FMState Req) (r : Option String) :
    FMState Req :=
  match n with
  | .financial => { s with financial_analysis := r }
  | .portfolio => { s with portfolio_recommendation := r }
  | .risk => { s with risk_analysis := r }

/--
One node body (`financial_node` / `portfolio_node` / `risk_node`,
fund_manager.py lines 126–172): write `node_start`, invoke the agent with
the stage's input, write `node_complete` with the result, save the turn to
memory, update the state field.  A transport failure
(`invoke_agent_runtime` or the response iteration raising) propagates out of
the node after the `node_start` write: no `node_complete`, no memory write,
no state update.
-/
def runNode {Req : Type} (w : World Req) (n : NodeId) (s : FMState Req) :
    NodeResult Req :=
  let input := nodeInput n s
  match w.respond n input with
  | .error err =>
    { chunks := [Chunk.nodeStart (nodeName n) s.session_id]
      writeAttempts := []
      writeFailures := []
      next := .error err }
  | .ok lines =>
    let out := callAgentWithStreaming w.parse lines
    let saved := saveToMemory w s.session_id (nodeName n) input out.final
    { chunks := Chunk.nodeStart (nodeName n) s.session_id
          :: (out.emitted.map Chunk.relay
              ++ [Chunk.nodeComplete (nodeName n) s.session_id out.final])
      writeAttempts := saved.1
      writeFailures := saved.2
      next := .ok (nodeUpdate n s out.final) }

/-- The edges of `create_graph` (lines 181–184):
`financial → portfolio → risk → END`. -/
def nextNode : NodeId → Option NodeId
  | .financial => some .portfolio
  | .portfolio => some .risk
  | .risk => none

/-- Everything observable about one pipeline run: the stages visited with
the payload each sent to its agent, the output stream, the memory writes,
and the final state or the propagated exception. -/
structure RunResult (Req : Type) where
  visited : List (NodeId × Payload Req)
  chunks : List Chunk
  writeAttempts : List MemoryTurn
  writeFailures : List MemoryTurn
  outcome : Except String (FMState Req)
deriving Repr

/--
The LangGraph engine on the compiled graph: run the current node; on an
exception abort the run; otherwise follow the single outgoing edge until
`END`.  Fuel bounds the walk (3 suffices for this acyclic three-node
graph).
-/
def runFrom {Req : Type} (w : World Req) : Nat → NodeId → FMState Req → RunResult Req
  | 0, _, s => ⟨[], [], [], [], .ok s⟩
  | fuel+1, n, s =>
    let r := runNode w n s
    match r.next with
    | .error err =>
      ⟨[(n, nodeInput n s)], r.chunks, r.writeAttempts, r.writeFailures, .error err⟩
    | .ok s' =>
      match nextNode n with
      | none =>
        ⟨[(n, nodeInput n s)], r.chunks, r.writeAttempts, r.writeFailures, .ok s'⟩
      | some m =>
        let rest := runFrom w fuel m s'
        ⟨(n, nodeInput n s) :: rest.visited,
         r.chunks ++ rest.chunks,
         r.writeAttempts ++ rest.writeAttempts,
         r.writeFailures ++ rest.writeFailures,
         rest.outcome⟩

/-- `initial_state` of `run_consultation` (fund_manager.py lines 198–204):
the three result fields start as the empty string. -/
def initialState {Req : Type} (user_input : Req) (session_id : String) : FMState Req :=
  { user_input := user_input
    session_id := session_id
    financial_analysis := some ("")
    portfolio_recommendation := some ("")
    risk_analysis := some ("") }

/-- `run_consultation` (lines 192–209): stream the graph from the entry
point `financial` on the initial state. -/
def runConsultation {Req : Type} (w : World Req) (user_input : Req)
    (session_id : String) : RunResult Req :=
  runFrom w 3 NodeId.financial (initialState user_input session_id)

/-- Claim C1: within one run the three stages execute in exactly the order
financial, portfolio, risk, each exactly once, and each stage's agent
receives as `input_data` the previous stage's result: the financial stage
receives the original request, the portfolio stage the financial stage's
result, the risk stage the portfolio stage's result. -/
theorem claim_C1 {Req : Type} (w : World Req) (ui : Req) (sid : String)
    (l1 l2 l3 : List String)
    (h1 : w.respond NodeId.financial (Payload.request ui) = Except.ok l1)
    (h2 : w.respond NodeId.portfolio
        (Payload.stageResult (callAgentWithStreaming w.parse l1).final)
        = Except.ok l2)
    (h3 : w.respond NodeId.risk
        (Payload.stageResult (callAgentWithStreaming w.parse l2).final)
        = Except.ok l3) :
    (runConsultation w ui sid).visited
      = [(NodeId.financial, Payload.request ui),
         (NodeId.portfolio,
          Payload.stageResult (callAgentWithStreaming w.parse l1).final),
         (NodeId.risk,
          Payload.stageResult (callAgentWithStreaming w.parse l2).final)] := by
  simp [runConsultation, runFrom, runNode, nodeInput, nodeUpdate, initialState,
        nextNode, h1, h2, h3]

/-- A concrete JSON parser for witness runs: three known frame bodies. -/
def sampleParse : String → Option Event :=
  fun s =>
    if s = ("T") then some { type := some ("text_chunk"), data := "hello" }
    else if s = ("C") then
      some { type := some ("streaming_complete"), result := some ("ok") }
    else if s = ("E") then some { type := some ("error"), error := some ("boom") }
    else none

/-- A concrete environment: every stage streams one text chunk and one
terminal frame, memory accepts every write. -/
def sampleWorld : World String :=
  { respond := fun _ _ => Except.ok [("data: T"), ("junk"), ("data: C")]
    parse := sampleParse
    dumpReq := fun r => r
    memory_id := true
    memWrite := fun _ => true }

theorem claim_C1_witness :
    (runConsultation sampleWorld ("ui") ("sess")).visited
      = [(NodeId.financial, Payload.request ("ui")),
         (NodeId.portfolio, Payload.stageResult (some ("ok"))),
         (NodeId.risk, Payload.stageResult (some ("ok")))] := by
  have h := claim_C1 sampleWorld ("ui") ("sess")
    [("data: T"), ("junk"), ("data: C")] [("data: T"), ("junk"), ("data: C")]
    [("data: T"), ("junk"), ("data: C")] rfl rfl rfl
  rw [h]
  decide

theorem ite_pair_fst {α β : Type} (c : Prop) [Decidable c]
    (a a' : α) (b b' : β) :
    (if c then (a, b) else (a', b')).1 = if c then a else a' := by
  split <;> rfl

theorem ite_pair_snd {α β : Type} (c : Prop) [Decidable c]
    (a a' : α) (b b' : β) :
    (if c then (a, b) else (a', b')).2 = if c then b else b' := by
  split <;> rfl

/-- Every turn `save_to_memory` attempts for a stage is labelled with that
stage's `agent_type`. -/
theorem saveToMemory_agent_type {Req : Type} (w : World Req)
    (sid name : String) (inp : Payload Req) (res : Option String) :
    ∀ t ∈ (saveToMemory w sid name inp res).1, t.agent_type = name := by
  intro t ht
  simp only [saveToMemory, ite_pair_fst] at ht
  split at ht
  · simp at ht
  · simp at ht
    subst ht
    rfl

/-- Claim C3: if stage N's transport fails (the agent invocation raises
before a terminal result frame), the run ends in the failed state carrying
that cause, stages after N never execute, and no memory turn is written for
stage N or any later stage.  Stated for each of the three possible failing
stages. -/
theorem claim_C3 {Req : Type} (w : World Req) (ui : Req) (sid : String) :
    (∀ err, w.respond NodeId.financial (Payload.request ui) = Except.error err →
      (runConsultation w ui sid).visited.map Prod.fst = [NodeId.financial]
      ∧ (runConsultation w ui sid).writeAttempts = []
      ∧ (runConsultation w ui sid).outcome = Except.error err)
    ∧ (∀ l1 err, w.respond NodeId.financial (Payload.request ui) = Except.ok l1 →
      w.respond NodeId.portfolio
          (Payload.stageResult (callAgentWithStreaming w.parse l1).final)
        = Except.error err →
      (runConsultation w ui sid).visited.map Prod.fst
          = [NodeId.financial, NodeId.portfolio]
      ∧ (∀ t ∈ (runConsultation w ui sid).writeAttempts,
          t.agent_type = ("financial"))
      ∧ (runConsultation w ui sid).outcome = Except.error err)
    ∧ (∀ l1 l2 err, w.respond NodeId.financial (Payload.request ui) = Except.ok l1 →
      w.respond NodeId.portfolio
          (Payload.stageResult (callAgentWithStreaming w.parse l1).final)
        = Except.ok l2 →
      w.respond NodeId.risk
          (Payload.stageResult (callAgentWithStreaming w.parse l2).final)
        = Except.error err →
      (runConsultation w ui sid).visited.map Prod.fst
          = [NodeId.financial, NodeId.portfolio, NodeId.risk]
      ∧ (∀ t ∈ (runConsultation w ui sid).writeAttempts,
          t.agent_type = ("financial") ∨ t.agent_type = ("portfolio"))
      ∧ (runConsultation w ui sid).outcome = Except.error err) := by
  refine ⟨?_, ?_, ?_⟩
  · intro err h1
    simp [runConsultation, runFrom, runNode, nodeInput, initialState, h1]
  · intro l1 err h1 h2
    refine ⟨?_, ?_, ?_⟩ <;>
      simp only [runConsultation, runFrom, runNode, nodeInput, nodeUpdate,
        initialState, nextNode, nodeName, h1, h2] <;>
      simp
    intro t ht
    exact saveToMemory_agent_type w sid ("financial") _ _ t ht
  · intro l1 l2 err h1 h2 h3
    refine ⟨?_, ?_, ?_⟩ <;>
      simp only [runConsultation, runFrom, runNode, nodeInput, nodeUpdate,
        initialState, nextNode, nodeName, h1, h2, h3] <;>
      simp
    intro t ht
    rcases ht with ht | ht
    · exact Or.inl (saveToMemory_agent_type w sid ("financial") _ _ t ht)
    · exact Or.inr (saveToMemory_agent_type w sid ("portfolio") _ _ t ht)

/-- A concrete environment whose portfolio-stage transport fails. -/
def failWorld : World String :=
  { respond := fun n _ =>
      match n with
      | NodeId.portfolio => Except.error ("down")
      | _ => Except.ok [("data: T"), ("data: C")]
    parse := sampleParse
    dumpReq := fun r => r
    memory_id := true
    memWrite := fun _ => true }

theorem claim_C3_witness :
    (runConsultation failWorld ("ui") ("sess")).visited.map Prod.fst
        = [NodeId.financial, NodeId.portfolio]
      ∧ (runConsultation failWorld ("ui") ("sess")).outcome
          = Except.error ("down") := by
  have h := (claim_C3 failWorld ("ui") ("sess")).2.1 [("data: T"), ("data: C")]
    ("down") rfl rfl
  exact ⟨h.1, h.2.2⟩

/-- A failed `create_event` call is exactly an attempted turn the store
rejected: it is recorded (logged) and otherwise swallowed. -/
theorem saveToMemory_failures_filter {Req : Type} (w : World Req)
    (sid name : String) (inp : Payload Req) (res : Option String) :
    (saveToMemory w sid name inp res).2
      = (saveToMemory w sid name inp res).1.filter (fun t => !w.memWrite t) := by
  simp only [saveToMemory]
  split
  · rfl
  · simp only [List.filter_cons, List.filter_nil]
    cases hw : w.memWrite _ <;> simp [hw]

/-- The attempted turn of `save_to_memory`, independent of the store's
accept/raise behaviour. -/
theorem saveToMemory_fst {Req : Type} (w : World Req)
    (sid name : String) (inp : Payload Req) (res : Option String) :
    (saveToMemory w sid name inp res).1
      = if !w.memory_id || !optStrTruthy res then []
        else [{ session_id := sid
                actor_id := "fund_manager_user"
                agent_type := name
                user_text := name ++ (" 분석 요청: ") ++ payloadText w.dumpReq inp
                assistant_text := name ++ (" 결과: ") ++ res.getD ("") }] := by
  simp only [saveToMemory]
  split <;> rfl

/-- Claim C8: whether any Memory Store write succeeds or throws has no
effect whatsoever on the run — the stages visited and their input payloads
(so stage N+1 still begins from stage N's in-memory result), the output
stream, the attempted turns, and the final outcome are identical under any
two write behaviours; the only trace of a throwing write is a logged
failure entry, which is exactly the attempted turn the store rejected. -/
theorem claim_C8 {Req : Type} (w : World Req) (mw mw' : MemoryTurn → Bool)
    (ui : Req) (sid : String) :
    (runConsultation { w with memWrite := mw } ui sid).visited
        = (runConsultation { w with memWrite := mw' } ui sid).visited
    ∧ (runConsultation { w with memWrite := mw } ui sid).chunks
        = (runConsultation { w with memWrite := mw' } ui sid).chunks
    ∧ (runConsultation { w with memWrite := mw } ui sid).writeAttempts
        = (runConsultation { w with memWrite := mw' } ui sid).writeAttempts
    ∧ (runConsultation { w with memWrite := mw } ui sid).outcome
        = (runConsultation { w with memWrite := mw' } ui sid).outcome
    ∧ (runConsultation { w with memWrite := mw } ui sid).writeFailures
        = (runConsultation { w with memWrite := mw } ui sid).writeAttempts.filter
            (fun t => !mw t) := by
  cases h1 : w.respond NodeId.financial (Payload.request ui) with
  | error e =>
    refine ⟨?_, ?_, ?_, ?_, ?_⟩ <;>
      simp [runConsultation, runFrom, runNode, nodeInput, nodeUpdate,
        initialState, nextNode, nodeName, h1, saveToMemory_failures_filter,
        List.filter_append]
  | ok l1 =>
    cases h2 : w.respond NodeId.portfolio
        (Payload.stageResult (callAgentWithStreaming w.parse l1).final) with
    | error e =>
      refine ⟨?_, ?_, ?_, ?_, ?_⟩ <;>
        simp [runConsultation, runFrom, runNode, nodeInput, nodeUpdate,
          initialState, nextNode, nodeName, h1, h2, saveToMemory_failures_filter,
          saveToMemory_fst, List.filter_append]
    | ok l2 =>
      cases h3 : w.respond NodeId.risk
          (Payload.stageResult (callAgentWithStreaming w.parse l2).final) with
      | error e =>
        refine ⟨?_, ?_, ?_, ?_, ?_⟩ <;>
          simp [runConsultation, runFrom, runNode, nodeInput, nodeUpdate,
            initialState, nextNode, nodeName, h1, h2, h3,
            saveToMemory_failures_filter, saveToMemory_fst, List.filter_append]
      | ok l3 =>
        refine ⟨?_, ?_, ?_, ?_, ?_⟩ <;>
          simp [runConsultation, runFrom, runNode, nodeInput, nodeUpdate,
            initialState, nextNode, nodeName, h1, h2, h3,
            saveToMemory_failures_filter, saveToMemory_fst, List.filter_append]

/-- With a falsy (`None`) stage result, `save_to_memory` is a no-op:
no turn is attempted. -/
theorem saveToMemory_none {Req : Type} (w : World Req)
    (sid name : String) (inp : Payload Req) :
    saveToMemory w sid name inp none = ([], []) := by
  simp [saveToMemory, optStrTruthy]

/-- The last-wins fold of `final_result`: folding over the whole event list
yields the `result` of the last `streaming_complete` event, or the
accumulator if there is none. -/
theorem foldl_streaming_last (evs : List Event) (acc : Option String) :
    evs.foldl
        (fun a e => if e.type = some ("streaming_complete") then e.result else a)
        acc
      = ((evs.filter
            (fun e => decide (e.type = some ("streaming_complete")))).getLast?).elim
          acc (fun e => e.result) := by
  induction evs generalizing acc with
  | nil => rfl
  | cons e evs ih =>
    rw [List.foldl_cons, ih, List.filter_cons]
    by_cases hp : e.type = some ("streaming_complete")
    · rw [if_pos hp, if_pos (decide_eq_true hp)]
      cases hfl : evs.filter
          (fun e => decide (e.type = some ("streaming_complete"))) with
      | nil => simp
      | cons x xs =>
        rw [List.getLast?_cons_cons]
        cases hg : (x :: xs).getLast? with
        | none =>
          exact absurd (List.getLast?_eq_none_iff.mp hg) (List.cons_ne_nil x xs)
        | some y => rfl
    · rw [if_neg hp, if_neg (by simp [hp])]

/-- A concrete environment whose financial stage streams no
`streaming_complete` frame at all. -/
def noCompleteWorld : World String :=
  { respond := fun n _ =>
      match n with
      | NodeId.financial => Except.ok [("data: T")]
      | _ => Except.ok [("data: T"), ("data: C")]
    parse := sampleParse
    dumpReq := fun r => r
    memory_id := true
    memWrite := fun _ => true }

/-- Claim C10: a stage invocation always consumes its decoded stream to
exhaustion — its result is the `result` field of the *last*
`streaming_complete` frame observed, or `None` when none occurs — and when
the financial stage's result is `None` the pipeline still continues: the
portfolio stage runs with that empty result as its payload, all three
stages execute, and no memory turn is written for the financial stage. -/
theorem claim_C10 {Req : Type} (parse : String → Option Event)
    (lines : List String) (w : World Req) (ui : Req) (sid : String)
    (l1 l2 l3 : List String)
    (h1 : w.respond NodeId.financial (Payload.request ui) = Except.ok l1)
    (hnone : (callAgentWithStreaming w.parse l1).final = none)
    (h2 : w.respond NodeId.portfolio (Payload.stageResult none) = Except.ok l2)
    (h3 : w.respond NodeId.risk
        (Payload.stageResult (callAgentWithStreaming w.parse l2).final)
        = Except.ok l3) :
    (callAgentWithStreaming parse lines).final
        = ((decodeLines parse lines).filter
            (fun e => decide (e.type = some ("streaming_complete")))).getLast?.bind
            (fun e => e.result)
    ∧ (runConsultation w ui sid).visited.map Prod.fst
        = [NodeId.financial, NodeId.portfolio, NodeId.risk]
    ∧ (NodeId.portfolio, Payload.stageResult (none : Option String))
        ∈ (runConsultation w ui sid).visited
    ∧ ∀ t ∈ (runConsultation w ui sid).writeAttempts,
        t.agent_type ≠ ("financial") := by
  refine ⟨?_, ?_, ?_, ?_⟩
  · show foldFinal (decodeLines parse lines) = _
    rw [foldFinal, foldl_streaming_last]
    cases (List.filter _ (decodeLines parse lines)).getLast? <;> rfl
  · simp [runConsultation, runFrom, runNode, nodeInput, nodeUpdate,
      initialState, nextNode, nodeName, h1, hnone, h2, h3]
  · simp [runConsultation, runFrom, runNode, nodeInput, nodeUpdate,
      initialState, nextNode, nodeName, h1, hnone, h2, h3]
  · intro t ht
    simp only [runConsultation, runFrom, runNode, nodeInput, nodeUpdate,
      initialState, nextNode, nodeName, h1, hnone, h2, h3, saveToMemory_none,
      List.nil_append, List.append_nil, List.mem_append,
      List.not_mem_nil, false_or] at ht
    rcases ht with ht | ht
    · have := saveToMemory_agent_type w sid ("portfolio") _ _ t ht
      rw [this]
      decide
    · have := saveToMemory_agent_type w sid ("risk") _ _ t ht
      rw [this]
      decide

theorem claim_C10_witness :
    (callAgentWithStreaming sampleParse
          [("data: T"), ("data: C"), ("junk"), ("data: E")]).final
        = ((decodeLines sampleParse
              [("data: T"), ("data: C"), ("junk"), ("data: E")]).filter
            (fun e => decide (e.type = some ("streaming_complete")))).getLast?.bind
            (fun e => e.result)
    ∧ (runConsultation noCompleteWorld ("ui") ("sess")).visited.map Prod.fst
        = [NodeId.financial, NodeId.portfolio, NodeId.risk]
    ∧ (NodeId.portfolio, Payload.stageResult (none : Option String))
        ∈ (runConsultation noCompleteWorld ("ui") ("sess")).visited := by
  have h := claim_C10 sampleParse
    [("data: T"), ("data: C"), ("junk"), ("data: E")]
    noCompleteWorld ("ui") ("sess") [("data: T")]
    [("data: T"), ("data: C")] [("data: T"), ("data: C")]
    rfl (by decide) rfl rfl
  exact ⟨h.1, h.2.1, h.2.2.1⟩

/-- The `agent_name` tag carried by an output-stream item: `node_start` and
`node_complete` dicts carry the stage name the node wrote into them; a
relayed agent event carries only whatever `agent_name` field its own JSON
had. -/
def chunkAgentTag : Chunk → Option String
  | .nodeStart a _ => some a
  | .nodeComplete a _ _ => some a
  | .relay e => e.agent_name

/-- The `session_id` tag carried by an output-stream item, likewise. -/
def chunkSessionTag : Chunk → Option String
  | .nodeStart _ s => some s
  | .nodeComplete _ s _ => some s
  | .relay e => e.session_id

/--
The consumer-side router of app.py (lines 415–513): `current_agent` is set
by each `node_start` event and otherwise left alone, and every other
relayed agent event is displayed in the container of the current agent.
`routeChunks cs cur` lists, for each relayed event, the agent it is routed
to.
-/
def routeChunks : List Chunk → Option String → List (Option String × Event)
  | [], _ => []
  | Chunk.nodeStart a _ :: cs, _ => routeChunks cs (some a)
  | Chunk.nodeComplete _ _ _ :: cs, cur => routeChunks cs cur
  | Chunk.relay e :: cs, cur => (cur, e) :: routeChunks cs cur

theorem routeChunks_relays (evs : List Event) (rest : List Chunk)
    (cur : Option String) :
    routeChunks (evs.map Chunk.relay ++ rest) cur
      = evs.map (fun e => (cur, e)) ++ routeChunks rest cur := by
  induction evs with
  | nil => rfl
  | cons e es ih => simp [routeChunks, ih]

theorem routeChunks_segment (a sid : String) (f : Option String)
    (evs : List Event) (rest : List Chunk) (cur : Option String) :
    routeChunks
        (Chunk.nodeStart a sid
          :: (evs.map Chunk.relay ++ (Chunk.nodeComplete a sid f :: rest)))
        cur
      = evs.map (fun e => (some a, e)) ++ routeChunks rest (some a) := by
  simp [routeChunks, routeChunks_relays]

/-- Counterexample to claim C4 as stated: in a concrete successful run, a
`text_chunk` StreamEvent relayed while the financial stage is active is
passed through `writer(event_data)` unchanged and carries no `agent_name`
and no `session_id` tag at all — only the `node_start` / `node_complete`
dicts written by the node itself are tagged. -/
theorem claim_C4_counterexample :
    Chunk.relay { type := some ("text_chunk"), data := "hello" }
        ∈ (runConsultation sampleWorld ("ui") ("sess")).chunks
      ∧ chunkAgentTag
          (Chunk.relay { type := some ("text_chunk"), data := "hello" }) = none
      ∧ chunkSessionTag
          (Chunk.relay { type := some ("text_chunk"), data := "hello" }) = none :=
  ⟨by decide, rfl, rfl⟩

/-- Claim C4 as amended: only the `node_start` and `node_complete` items are
tagged with the active stage name and session id; the StreamEvents relayed
while a stage is active are passed through unchanged, strictly bracketed
between that stage's `node_start` and `node_complete`, so a consumer that
tracks the most recent `node_start` (as app.py does) routes every relayed
event to the stage that produced it. -/
theorem claim_C4_amended {Req : Type} (w : World Req) (ui : Req) (sid : String)
    (l1 l2 l3 : List String)
    (h1 : w.respond NodeId.financial (Payload.request ui) = Except.ok l1)
    (h2 : w.respond NodeId.portfolio
        (Payload.stageResult (callAgentWithStreaming w.parse l1).final)
        = Except.ok l2)
    (h3 : w.respond NodeId.risk
        (Payload.stageResult (callAgentWithStreaming w.parse l2).final)
        = Except.ok l3) :
    (runConsultation w ui sid).chunks
      = (Chunk.nodeStart ("financial") sid
          :: ((callAgentWithStreaming w.parse l1).emitted.map Chunk.relay
            ++ [Chunk.nodeComplete ("financial") sid
                  (callAgentWithStreaming w.parse l1).final]))
        ++ (Chunk.nodeStart ("portfolio") sid
          :: ((callAgentWithStreaming w.parse l2).emitted.map Chunk.relay
            ++ [Chunk.nodeComplete ("portfolio") sid
                  (callAgentWithStreaming w.parse l2).final]))
        ++ (Chunk.nodeStart ("risk") sid
          :: ((callAgentWithStreaming w.parse l3).emitted.map Chunk.relay
            ++ [Chunk.nodeComplete ("risk") sid
                  (callAgentWithStreaming w.parse l3).final]))
    ∧ routeChunks (runConsultation w ui sid).chunks none
      = (callAgentWithStreaming w.parse l1).emitted.map
          (fun e => (some ("financial"), e))
        ++ (callAgentWithStreaming w.parse l2).emitted.map
          (fun e => (some ("portfolio"), e))
        ++ (callAgentWithStreaming w.parse l3).emitted.map
          (fun e => (some ("risk"), e)) := by
  have hc : (runConsultation w ui sid).chunks
      = Chunk.nodeStart ("financial") sid
          :: ((callAgentWithStreaming w.parse l1).emitted.map Chunk.relay
            ++ (Chunk.nodeComplete ("financial") sid
                  (callAgentWithStreaming w.parse l1).final
              :: (Chunk.nodeStart ("portfolio") sid
                :: ((callAgentWithStreaming w.parse l2).emitted.map Chunk.relay
                  ++ (Chunk.nodeComplete ("portfolio") sid
                        (callAgentWithStreaming w.parse l2).final
                    :: (Chunk.nodeStart ("risk") sid
                      :: ((callAgentWithStreaming w.parse l3).emitted.map Chunk.relay
                        ++ (Chunk.nodeComplete ("risk") sid
                              (callAgentWithStreaming w.parse l3).final
                          :: [])))))))) := by
    simp [runConsultation, runFrom, runNode, nodeInput, nodeUpdate,
      initialState, nextNode, nodeName, h1, h2, h3]
  constructor
  · rw [hc]
    simp
  · rw [hc, routeChunks_segment, routeChunks_segment, routeChunks_segment]
    simp [routeChunks]

theorem claim_C4_amended_witness :
    (runConsultation sampleWorld ("ui") ("sess")).chunks
      = (Chunk.nodeStart ("financial") ("sess")
          :: ((callAgentWithStreaming sampleParse
                  [("data: T"), ("junk"), ("data: C")]).emitted.map Chunk.relay
            ++ [Chunk.nodeComplete ("financial") ("sess")
                  (callAgentWithStreaming sampleParse
                    [("data: T"), ("junk"), ("data: C")]).final]))
        ++ (Chunk.nodeStart ("portfolio") ("sess")
          :: ((callAgentWithStreaming sampleParse
                  [("data: T"), ("junk"), ("data: C")]).emitted.map Chunk.relay
            ++ [Chunk.nodeComplete ("portfolio") ("sess")
                  (callAgentWithStreaming sampleParse
                    [("data: T"), ("junk"), ("data: C")]).final]))
        ++ (Chunk.nodeStart ("risk") ("sess")
          :: ((callAgentWithStreaming sampleParse
                  [("data: T"), ("junk"), ("data: C")]).emitted.map Chunk.relay
            ++ [Chunk.nodeComplete ("risk") ("sess")
                  (callAgentWithStreaming sampleParse
                    [("data: T"), ("junk"), ("data: C")]).final]))
    ∧ routeChunks (runConsultation sampleWorld ("ui") ("sess")).chunks none
      = (callAgentWithStreaming sampleParse
            [("data: T"), ("junk"), ("data: C")]).emitted.map
          (fun e => (some ("financial"), e))
        ++ (callAgentWithStreaming sampleParse
            [("data: T"), ("junk"), ("data: C")]).emitted.map
          (fun e => (some ("portfolio"), e))
        ++ (callAgentWithStreaming sampleParse
            [("data: T"), ("junk"), ("data: C")]).emitted.map
          (fun e => (some ("risk"), e)) :=
  claim_C4_amended sampleWorld ("ui") ("sess")
    [("data: T"), ("junk"), ("data: C")] [("data: T"), ("junk"), ("data: C")]
    [("data: T"), ("junk"), ("data: C")] rfl rfl rfl

/-- First occurrence of a separator in a character sequence: the remainder
after the separator, or `none` when the separator does not occur
(`"___" in tool_name` is false). -/
def afterFirstSep (sep : List Char) : List Char → Option (List Char)
  | [] => none
  | c :: cs =>
    if List.isPrefixOf sep (c :: cs) then some (List.drop sep.length (c :: cs))
    else afterFirstSep sep cs

/-- Iterate `afterFirstSep` to the last segment of the left-to-right split;
each step strictly shortens the list, so `fuel := length` always reaches the
fixpoint. -/
def lastSegGo (sep : List Char) : Nat → List Char → List Char
  | 0, s => s
  | fuel+1, s =>
    match afterFirstSep sep s with
    | none => s
    | some rest => lastSegGo sep fuel rest

/-- app.py line 443:
`tool_name.split("___")[-1] if "___" in tool_name else tool_name`. -/
def actualToolName (tool_name : String) : String :=
  String.mk (lastSegGo ("___").data tool_name.data.length tool_name.data)

/-- Lookup in a Python dict modelled as a key-unique association list
(`d.get(k)` / `k in d`). -/
def dget {κ α : Type} [DecidableEq κ] : List (κ × α) → κ → Option α
  | [], _ => none
  | (k', v) :: d, k => if k' = k then some v else dget d k

/-- Python `del d[k]` (and the helper for overwriting insertion). -/
def derase {κ α : Type} [DecidableEq κ] : List (κ × α) → κ → List (κ × α)
  | [], _ => []
  | (k', v) :: d, k => if k' = k then derase d k else (k', v) :: derase d k

/-- Python `d[k] = v`: latest wins, keys stay unique. -/
def dinsert {κ α : Type} [DecidableEq κ] (d : List (κ × α)) (k : κ) (v : α) :
    List (κ × α) :=
  (k, v) :: derase d k

theorem dget_dinsert {κ α : Type} [DecidableEq κ] (d : List (κ × α)) (k : κ)
    (v : α) : dget (dinsert d k v) k = some v := by
  simp [dinsert, dget]

theorem dget_derase {κ α : Type} [DecidableEq κ] (d : List (κ × α)) (k : κ) :
    dget (derase d k) k = none := by
  induction d with
  | nil => rfl
  | cons p d ih =>
    obtain ⟨k', v⟩ := p
    by_cases h : k' = k
    · simp [derase, h, ih]
    · simp [derase, dget, h, ih]

/-- The correlation record shown for one `tool_result` event: the id it
carried and the tool name / input recovered from the pending dictionaries
(`"unknown"` on a miss), app.py lines 447–450. -/
structure ToolObservation where
  tool_use_id : String
  tool_name : String
  tool_input : String
deriving Repr, DecidableEq

/-- The mutable state of the `invoke_fund_manager` consumer loop (app.py
lines 415–421): the current-agent cursor, the two pending-tool-call
dictionaries, the per-agent thinking buffers (keyed by the value
`event_data.get("agent_name")` put into `current_agent`, hence an
`Option String` key), and the log of tool-result renderings. -/
structure ViewerState where
  current_agent : Option String := none
  tool_id_to_name : List (String × String) := []
  tool_id_to_input : List (String × String) := []
  current_thinking : List (Option String × String) := []
  rendered : List ToolObservation := []
deriving Repr, DecidableEq

/-- The fresh state built at the top of each `invoke_fund_manager` call. -/
def initViewer : ViewerState :=
  { current_agent := none
    tool_id_to_name := []
    tool_id_to_input := []
    current_thinking := []
    rendered := [] }

/--
One iteration of the `invoke_fund_manager` event dispatch (app.py lines
429–541), for every event type except the early-returning `error` case:

* `text_chunk`: append the delta to the current agent's thinking buffer if
  the cursor is truthy and has a buffer;
* `tool_use`: record the pending call in both dictionaries (overwriting);
* `tool_result`: look both dictionaries up (default `"unknown"`), render the
  observation, then — only if the cursor is truthy — clear the thinking
  buffer and delete the entry from both dictionaries;
* `node_start`: move the cursor to the event's `agent_name` and create its
  empty thinking buffer;
* `node_complete` and anything else: display only, no correlation state
  change.
-/
def stepViewer (s : ViewerState) (e : Event) : ViewerState :=
  if e.type = some ("text_chunk") then
    if optStrTruthy s.current_agent
        && (dget s.current_thinking s.current_agent).isSome then
      { s with current_thinking :=
          (dinsert s.current_thinking s.current_agent
            ((dget s.current_thinking s.current_agent).getD ("") ++ e.data)) }
    else s
  else if e.type = some ("tool_use") then
    { s with
      tool_id_to_name :=
        dinsert s.tool_id_to_name e.tool_use_id (actualToolName e.tool_name)
      tool_id_to_input := dinsert s.tool_id_to_input e.tool_use_id e.tool_input }
  else if e.type = some ("tool_result") then
    let nm := (dget s.tool_id_to_name e.tool_use_id).getD ("unknown")
    let inp := (dget s.tool_id_to_input e.tool_use_id).getD ("unknown")
    let s1 := { s with rendered := ⟨e.tool_use_id, nm, inp⟩ :: s.rendered }
    if optStrTruthy s.current_agent then
      { s1 with
        current_thinking := dinsert s1.current_thinking s.current_agent ("")
        tool_id_to_name := derase s1.tool_id_to_name e.tool_use_id
        tool_id_to_input := derase s1.tool_id_to_input e.tool_use_id }
    else s1
  else if e.type = some ("node_start") then
    { s with
      current_agent := e.agent_name
      current_thinking := dinsert s.current_thinking e.agent_name ("") }
  else s

/-- The value `invoke_fund_manager` returns: `{"status": "success"}` after
the stream is exhausted, or the early `{"status": "error", "error": ...}`. -/
inductive ViewerStatus
  | success
  | error (msg : String)
deriving Repr, DecidableEq

/-- The `invoke_fund_manager` consumer loop over the decoded events: an
`error`-kind event returns immediately with its message
(`event_data.get("error", "Unknown error")`, app.py lines 540–541), leaving
the rest of the stream unconsumed; otherwise the event is processed and the
loop continues, ending in success. -/
def runViewer : List Event → ViewerState → ViewerStatus × ViewerState
  | [], s => (ViewerStatus.success, s)
  | e :: es, s =>
    if e.type = some ("error") then
      (ViewerStatus.error ((e.error).getD ("Unknown error")), s)
    else
      runViewer es (stepViewer s e)

/-- Concrete events for the consumer-loop runs. -/
def evNodeStartFin : Event :=
  { type := some ("node_start"), agent_name := some ("financial"),
    session_id := some ("s1") }

def evNodeStartPort : Event :=
  { type := some ("node_start"), agent_name := some ("portfolio"),
    session_id := some ("s1") }

def evToolUseCalc : Event :=
  { type := some ("tool_use"), tool_name := "calculator",
    tool_use_id := "abc", tool_input := "1+1" }

def evToolResultAbc : Event :=
  { type := some ("tool_result"), tool_use_id := "abc", content := [("{}")] }

def evTextHello : Event := { type := some ("text_chunk"), data := "hello" }

def evErrorBoom : Event := { type := some ("error"), error := some ("boom") }

def evComplete : Event :=
  { type := some ("streaming_complete"), result := some ("ok") }

/-- Counterexample to claim C5 as stated: a pending call registered while
the financial stage was active survives the `node_start` stage boundary
untouched, and a `tool_result` with the same `callId` arriving during the
portfolio stage still correlates — it is rendered with the stored name
`calculator`, not `unknown`.  No dictionary clearing happens at a stage
boundary. -/
theorem claim_C5_counterexample :
    dget (runViewer [evNodeStartFin, evToolUseCalc, evNodeStartPort]
        initViewer).2.tool_id_to_name ("abc")
      = some ("calculator")
    ∧ (runViewer
          [evNodeStartFin, evToolUseCalc, evNodeStartPort, evToolResultAbc]
          initViewer).2.rendered
      = [{ tool_use_id := "abc", tool_name := "calculator",
           tool_input := "1+1" }] := by
  constructor
  · decide
  · decide

/-- Claim C5 as amended: the correlator's pending dictionaries are scoped to
one pipeline run (rebuilt empty at the start of each `invoke_fund_manager`
call), but they are *not* cleared when a stage boundary (`node_start`
event) is crossed — a `node_start` leaves both pending dictionaries exactly
as they were, so a `callId` registered during an earlier stage still
correlates to a tool result arriving in a later stage; entries disappear
only individually, when a matching `tool_result` is processed. -/
theorem claim_C5_amended (s : ViewerState) (e : Event)
    (hty : e.type = some ("node_start")) :
    (stepViewer s e).tool_id_to_name = s.tool_id_to_name
    ∧ (stepViewer s e).tool_id_to_input = s.tool_id_to_input
    ∧ initViewer.tool_id_to_name = [] ∧ initViewer.tool_id_to_input = [] := by
  refine ⟨?_, ?_, rfl, rfl⟩ <;> simp [stepViewer, hty]

theorem claim_C5_amended_witness :
    (stepViewer (runViewer [evNodeStartFin, evToolUseCalc] initViewer).2
        evNodeStartPort).tool_id_to_name
      = (runViewer [evNodeStartFin, evToolUseCalc] initViewer).2.tool_id_to_name
    ∧ (stepViewer (runViewer [evNodeStartFin, evToolUseCalc] initViewer).2
        evNodeStartPort).tool_id_to_input
      = (runViewer [evNodeStartFin, evToolUseCalc] initViewer).2.tool_id_to_input
    ∧ initViewer.tool_id_to_name = [] ∧ initViewer.tool_id_to_input = [] :=
  claim_C5_amended (runViewer [evNodeStartFin, evToolUseCalc] initViewer).2
    evNodeStartPort rfl

/-- Claim C6: while a stage is active, a `tool_result` whose `callId` has a
pending entry is rendered with the stored tool name and input and the entry
is deleted from both dictionaries (the same `callId` cannot correlate
again); a `tool_result` with no pending entry is still rendered, under the
`unknown` label; and in both cases the loop simply continues with the next
event — a correlation miss is never fatal. -/
theorem claim_C6 (s : ViewerState) (e : Event)
    (hty : e.type = some ("tool_result"))
    (hact : optStrTruthy s.current_agent = true) :
    (∀ nm, dget s.tool_id_to_name e.tool_use_id = some nm →
      (stepViewer s e).rendered
          = { tool_use_id := e.tool_use_id, tool_name := nm,
              tool_input :=
                (dget s.tool_id_to_input e.tool_use_id).getD ("unknown") }
            :: s.rendered
        ∧ dget (stepViewer s e).tool_id_to_name e.tool_use_id = none
        ∧ dget (stepViewer s e).tool_id_to_input e.tool_use_id = none)
    ∧ (dget s.tool_id_to_name e.tool_use_id = none →
      (stepViewer s e).rendered
        = { tool_use_id := e.tool_use_id, tool_name := "unknown",
            tool_input :=
              (dget s.tool_id_to_input e.tool_use_id).getD ("unknown") }
          :: s.rendered)
    ∧ ∀ es, runViewer (e :: es) s = runViewer es (stepViewer s e) := by
  refine ⟨?_, ?_, ?_⟩
  · intro nm hnm
    refine ⟨?_, ?_, ?_⟩ <;>
      simp [stepViewer, hty, hact, hnm, dget_derase]
  · intro hnone
    simp [stepViewer, hty, hact, hnone]
  · intro es
    rw [runViewer, if_neg (by simp [hty])]

/-- A viewer state with one pending tool call, as after
`node_start(financial)` and a `tool_use`. -/
def pendingState : ViewerState :=
  { current_agent := some ("financial")
    tool_id_to_name := [(("abc"), ("calculator"))]
    tool_id_to_input := [(("abc"), ("1+1"))]
    current_thinking := [(some ("financial"), (""))]
    rendered := [] }

theorem claim_C6_witness :
    (stepViewer pendingState evToolResultAbc).rendered
        = [{ tool_use_id := "abc", tool_name := "calculator",
             tool_input := "1+1" }]
    ∧ dget (stepViewer pendingState evToolResultAbc).tool_id_to_name ("abc")
        = none
    ∧ dget (stepViewer pendingState evToolResultAbc).tool_id_to_input ("abc")
        = none
    ∧ runViewer [evToolResultAbc] pendingState
        = runViewer [] (stepViewer pendingState evToolResultAbc) := by
  have h := claim_C6 pendingState evToolResultAbc rfl rfl
  have h1 := h.1 ("calculator") rfl
  exact ⟨h1.1, h1.2.1, h1.2.2, h.2.2 []⟩

/-- A concrete environment in which every stage's stream carries an
`error`-kind event before its terminal frame. -/
def errWorld : World String :=
  { respond := fun _ _ => Except.ok [("data: E"), ("data: C")]
    parse := sampleParse
    dumpReq := fun r => r
    memory_id := true
    memWrite := fun _ => true }

/-- Counterexample to claim C7 as stated: an `error`-kind event arrives on
the decoded stream of a stage invocation, yet `call_agent_with_streaming`
does not complete as a Failure — it relays the error event, keeps
consuming, and returns the later `streaming_complete` result; the whole
pipeline then proceeds through all three stages. -/
theorem claim_C7_counterexample :
    (callAgentWithStreaming sampleParse [("data: E"), ("data: C")]).final
        = some ("ok")
    ∧ (callAgentWithStreaming sampleParse [("data: E"), ("data: C")]).emitted
        = [evErrorBoom, evComplete]
    ∧ (runConsultation errWorld ("ui") ("sess")).visited.map Prod.fst
        = [NodeId.financial, NodeId.portfolio, NodeId.risk] := by
  refine ⟨?_, ?_, ?_⟩ <;> decide

/-- Claim C7 as amended: the server-side stage invoker does not abort on an
`error`-kind event (see the counterexample); it is the client-side consumer
`invoke_fund_manager` that, when the first `error`-kind event arrives on
its decoded stream, completes the run as a Failure carrying that event's
message — returning immediately, so that any frames still pending on the
open transport are never processed. -/
theorem claim_C7_amended (s : ViewerState) (pre post : List Event) (e : Event)
    (hpre : ∀ x ∈ pre, x.type ≠ some ("error"))
    (he : e.type = some ("error")) :
    (runViewer (pre ++ e :: post) s).1
        = ViewerStatus.error ((e.error).getD ("Unknown error"))
    ∧ runViewer (pre ++ e :: post) s = runViewer (pre ++ [e]) s := by
  revert hpre
  induction pre generalizing s with
  | nil =>
    intro _
    exact ⟨by simp [runViewer, he], by simp [runViewer, he]⟩
  | cons p ps ih =>
    intro hpre
    have hp : p.type ≠ some ("error") := hpre p (List.mem_cons_self p ps)
    have hps : ∀ x ∈ ps, x.type ≠ some ("error") :=
      fun x hx => hpre x (List.mem_cons_of_mem p hx)
    have h2 := ih (stepViewer s p) hps
    constructor
    · rw [List.cons_append]
      simp only [runViewer]
      rw [if_neg hp]
      exact h2.1
    · rw [List.cons_append, List.cons_append]
      simp only [runViewer]
      rw [if_neg hp, if_neg hp]
      exact h2.2

theorem claim_C7_amended_witness :
    (runViewer ([evTextHello] ++ evErrorBoom :: [evComplete]) initViewer).1
        = ViewerStatus.error ((evErrorBoom.error).getD ("Unknown error"))
    ∧ runViewer ([evTextHello] ++ evErrorBoom :: [evComplete]) initViewer
        = runViewer ([evTextHello] ++ [evErrorBoom]) initViewer :=
  claim_C7_amended initViewer [evTextHello] [evComplete] evErrorBoom
    (by decide) rfl

/-- One record returned by `memory_client.retrieve_memories`: its summary
text and its creation time. -/
structure MemRecord where
  content : String
  createdAt : Nat
deriving Repr, DecidableEq

/-- The result dict of `load_current_session_summary` (app.py lines
581–591): the found summary with its timestamp, or the not-found marker. -/
inductive SummaryOutcome
  | found (session_id : String) (timestamp : Nat) (content : String)
  | notFound (session_id : String)
deriving Repr, DecidableEq

/-- The namespace string built at app.py line 561:
`f"fund_management/session/{current_session}"`. -/
def sessionNamespace (sessionId : String) : String :=
  ("fund_management/session/") ++ sessionId

/-- The namespace template configured for the SUMMARY strategy in
deploy_agentcore_memory.py line 50. -/
def strategyNamespaceTemplate : String := "fund_management/session/{sessionId}"

/-- Substitution of the first occurrence of a placeholder pattern in a
character sequence. -/
def replaceFirst (pat repl : List Char) : List Char → List Char
  | [] => []
  | c :: cs =>
    if List.isPrefixOf pat (c :: cs) then repl ++ List.drop pat.length (c :: cs)
    else c :: replaceFirst pat repl cs

/-- Instantiating the deployed strategy's namespace template at a session
id. -/
def renderNamespaceTemplate (tpl sid : String) : String :=
  String.mk (replaceFirst (("\x7bsessionId\x7d").data) sid.data tpl.data)

/-- The template configured at deployment denotes, for every session id,
exactly the namespace the reader queries. -/
theorem template_renders (sid : String) :
    renderNamespaceTemplate strategyNamespaceTemplate sid
      = sessionNamespace sid := by
  have h : renderNamespaceTemplate strategyNamespaceTemplate sid
      = String.mk (("fund_management/session/").data ++ (sid.data ++ [])) := rfl
  rw [h, List.append_nil]
  rfl

/--
`load_current_session_summary` (app.py lines 556–591): build the session
namespace, query the Memory Store there (the query text is the constant
`"fund management consultation summary"`), and return the first record of
the response as the latest summary, or the not-found marker when the
response is empty.  The pair records the namespace actually queried.
-/
def load_current_session_summary (retrieve : String → List MemRecord)
    (sessionId : String) : String × SummaryOutcome :=
  let session_namespace := sessionNamespace sessionId
  match retrieve session_namespace with
  | [] => (session_namespace, SummaryOutcome.notFound sessionId)
  | r :: _ =>
    (session_namespace, SummaryOutcome.found sessionId r.createdAt r.content)

/-- Claim C9: the summary reader queries the Memory Store under exactly the
namespace `fund_management/session/{sessionId}` — the same shape the
deployed SUMMARY strategy is configured with — and returns the head record
of the response, which is the newest record by creation time whenever the
store lists newest first; an empty response (in particular a session with
no prior turns and hence no derived summary) yields the not-found
marker. -/
theorem claim_C9 (retrieve : String → List MemRecord) (sessionId : String) :
    (load_current_session_summary retrieve sessionId).1
        = ("fund_management/session/") ++ sessionId
    ∧ (load_current_session_summary retrieve sessionId).1
        = renderNamespaceTemplate strategyNamespaceTemplate sessionId
    ∧ (retrieve (sessionNamespace sessionId) = [] →
        (load_current_session_summary retrieve sessionId).2
          = SummaryOutcome.notFound sessionId)
    ∧ ∀ r rs, retrieve (sessionNamespace sessionId) = r :: rs →
        (∀ x ∈ rs, x.createdAt ≤ r.createdAt) →
        (load_current_session_summary retrieve sessionId).2
            = SummaryOutcome.found sessionId r.createdAt r.content
          ∧ ∀ x ∈ retrieve (sessionNamespace sessionId),
              x.createdAt ≤ r.createdAt := by
  refine ⟨?_, ?_, ?_, ?_⟩
  · cases h : retrieve (sessionNamespace sessionId) with
    | nil =>
      simp only [load_current_session_summary]
      rw [h]
      rfl
    | cons r rs =>
      simp only [load_current_session_summary]
      rw [h]
      rfl
  · rw [template_renders]
    cases h : retrieve (sessionNamespace sessionId) with
    | nil =>
      simp only [load_current_session_summary]
      rw [h]
    | cons r rs =>
      simp only [load_current_session_summary]
      rw [h]
  · intro h
    simp [load_current_session_summary, h]
  · intro r rs h hmax
    refine ⟨by simp [load_current_session_summary, h], ?_⟩
    intro x hx
    rw [h] at hx
    rcases List.mem_cons.mp hx with hx | hx
    · rw [hx]
    · exact hmax x hx

/-- A concrete store: the session `sess1` has two summary records, newest
first. -/
def sampleStore : String → List MemRecord :=
  fun ns =>
    if ns = ("fund_management/session/sess1") then
      [{ content := "sum2", createdAt := 5 }, { content := "sum1", createdAt := 3 }]
    else []

theorem claim_C9_witness :
    (load_current_session_summary sampleStore ("sess1")).1
        = ("fund_management/session/sess1")
    ∧ (load_current_session_summary sampleStore ("sess1")).2
        = SummaryOutcome.found ("sess1") 5 ("sum2")
    ∧ (load_current_session_summary sampleStore ("nosess")).2
        = SummaryOutcome.notFound ("nosess") := by
  have h := claim_C9 sampleStore ("sess1")
  have h4 := h.2.2.2 { content := "sum2", createdAt := 5 }
    [{ content := "sum1", createdAt := 3 }] (by decide) (by decide)
  have h0 := claim_C9 sampleStore ("nosess")
  refine ⟨?_, h4.1, h0.2.2.1 (by decide)⟩
  rw [h.1]
  decide
